import Mathlib

/-!
Shallow embedding of `src/deploy/functions/services/authBlocking.ts`:
validation and remote registration of auth-blocking cloud functions.

Mutation of the deployment backend (`wantBackend`) is modelled by explicit
state passing: `ensureAuthBlockingTriggerIsValid` returns the backend after
the call together with the thrown error (if any), matching TypeScript
exception semantics where mutations performed before a `throw` persist.
The remote identity-platform config is modelled by passing the fetched
config in and returning the config written back (`Except` for thrown
errors; `none` for an early return that performs no write).
-/

namespace AuthBlocking

namespace events

namespace v1

/-- Modelled from the spec: the v1 naming-scheme constant for the
before-create auth blocking event (`src/functions/events/v1` is not part
of this fragment; the spec says each event family has v1/v2 variants). -/
def BEFORE_CREATE_EVENT : String := "providers/cloud.auth/eventTypes/user.beforeCreate"

/-- Modelled from the spec: the v1 naming-scheme constant for the
before-sign-in auth blocking event. -/
def BEFORE_SIGN_IN_EVENT : String := "providers/cloud.auth/eventTypes/user.beforeSignIn"

end v1

namespace v2

/-- Modelled from the spec: the v2 naming-scheme constant for the
before-create auth blocking event. -/
def BEFORE_CREATE_EVENT : String := "google.cloud.auth.user.v1.beforeCreate"

/-- Modelled from the spec: the v2 naming-scheme constant for the
before-sign-in auth blocking event. -/
def BEFORE_SIGN_IN_EVENT : String := "google.cloud.auth.user.v1.beforeSignIn"

end v2

end events

/-- The blocking-trigger metadata of an endpoint: the event type string and
the three optional token-forwarding flags (`backend.BlockingTrigger`). -/
structure BlockingTrigger where
  eventType : String
  accessToken : Option Bool
  idToken : Option Bool
  refreshToken : Option Bool
deriving DecidableEq, Repr

/-- A deployable endpoint (`backend.Endpoint`), restricted to the fields
this module touches; `blockingTrigger = none` models an endpoint that is
not blocking-triggered. -/
structure Endpoint where
  id : String
  project : String
  uri : Option String
  blockingTrigger : Option BlockingTrigger
deriving DecidableEq, Repr

/-- An endpoint known to be blocking-triggered
(`backend.Endpoint & backend.BlockingTriggered`). -/
structure BlockingEndpoint where
  id : String
  project : String
  uri : Option String
  blockingTrigger : BlockingTrigger
deriving DecidableEq, Repr

/-- View a blocking endpoint as a plain endpoint of the backend. -/
def BlockingEndpoint.toEndpoint (e : BlockingEndpoint) : Endpoint :=
  ⟨e.id, e.project, e.uri, some e.blockingTrigger⟩

/-- The merged identity-platform options stored on the backend resource
options (`wantBackend.resourceOptions.identityPlatform`). -/
structure IdentityPlatformOptions where
  accessToken : Bool
  idToken : Bool
  refreshToken : Bool
deriving DecidableEq, Repr

/-- Shared resource options of a backend (`backend.resourceOptions`). -/
structure ResourceOptions where
  identityPlatform : Option IdentityPlatformOptions
deriving DecidableEq, Repr

/-- The deployment plan (`backend.Backend`): its endpoints plus shared
resource options. -/
structure Backend where
  endpoints : List Endpoint
  resourceOptions : ResourceOptions
deriving DecidableEq, Repr

/-- `backend.allEndpoints(wantBackend)`. -/
def allEndpoints (b : Backend) : List Endpoint := b.endpoints

/-- `backend.isBlockingTriggered(ep)`. -/
def isBlockingTriggered (ep : Endpoint) : Bool := ep.blockingTrigger.isSome

/-- One trigger slot of the remote blocking functions config
(an object with an optional `functionUri`). Modelled from the spec:
the wire shape of `BlockingConfig` (`gcp/identityPlatform` is not part of
this fragment). -/
structure TriggerSlot where
  functionUri : Option String
deriving DecidableEq, Repr

/-- The `triggers` object of the remote blocking functions config.
Modelled from the spec: wire shape of `BlockingConfig`. -/
structure BlockingTriggers where
  beforeCreate : Option TriggerSlot
  beforeSignIn : Option TriggerSlot
deriving DecidableEq, Repr

/-- The string-typed forwarding flags of the remote config. Modelled from
the spec: the wire format uses string-typed booleans. -/
structure ForwardInboundCredentials where
  idToken : String
  accessToken : String
  refreshToken : String
deriving DecidableEq, Repr

/-- The remote blocking functions config. Modelled from the spec: wire
shape of `BlockingConfig`. -/
structure BlockingFunctionsConfig where
  triggers : Option BlockingTriggers
  forwardInboundCredentials : Option ForwardInboundCredentials
deriving DecidableEq, Repr

/-- The duplicate-trigger error message thrown by
`ensureAuthBlockingTriggerIsValid`. -/
def duplicateTriggerErrorMessage (eventType : String) : String :=
  "Can only create at most one Auth Blocking Trigger for " ++ eventType ++ " events"

/-- The `blockingEndpoints.find(...)` duplicate test of
`ensureAuthBlockingTriggerIsValid`: some other blocking endpoint of the
plan has the same event type but a different id. The `Option.any` on the
trigger reflects the source's cast of the filtered list to blocking
endpoints. -/
def hasDuplicateBlockingTrigger (endpoint : BlockingEndpoint) (wantBackend : Backend) : Bool :=
  let blockingEndpoints := (allEndpoints wantBackend).filter isBlockingTriggered
  (blockingEndpoints.find? (fun ep =>
      ep.blockingTrigger.any (fun t => t.eventType == endpoint.blockingTrigger.eventType) &&
        ep.id != endpoint.id)).isSome

/-- `ensureAuthBlockingTriggerIsValid(endpoint, wantBackend)`: throws on a
duplicate blocking trigger, otherwise initializes the merged
identity-platform options to all-false when absent and ORs in this
endpoint's flags (`undefined` treated as `false`). Returns the backend
state after the call and the thrown error message, if any. -/
def ensureAuthBlockingTriggerIsValid (endpoint : BlockingEndpoint) (wantBackend : Backend) :
    Backend × Option String :=
  if hasDuplicateBlockingTrigger endpoint wantBackend then
    (wantBackend, some (duplicateTriggerErrorMessage endpoint.blockingTrigger.eventType))
  else
    let ip := wantBackend.resourceOptions.identityPlatform.getD
      { accessToken := false, idToken := false, refreshToken := false }
    let ip : IdentityPlatformOptions :=
      { accessToken := ip.accessToken || endpoint.blockingTrigger.accessToken.getD false
        idToken := ip.idToken || endpoint.blockingTrigger.idToken.getD false
        refreshToken := ip.refreshToken || endpoint.blockingTrigger.refreshToken.getD false }
    ({ wantBackend with resourceOptions := { identityPlatform := some ip } }, none)

/-- `copyIdentityPlatformOptionsToEndpoint(endpoint, wantBackend)`:
overwrites the endpoint's three flags with the plan's merged flags
(absent merged options treated as `false`). -/
def copyIdentityPlatformOptionsToEndpoint (endpoint : BlockingEndpoint) (wantBackend : Backend) :
    BlockingEndpoint :=
  { endpoint with blockingTrigger :=
    { endpoint.blockingTrigger with
      accessToken := some
        ((wantBackend.resourceOptions.identityPlatform.map
          (fun o => o.accessToken)).getD false)
      idToken := some
        ((wantBackend.resourceOptions.identityPlatform.map
          (fun o => o.idToken)).getD false)
      refreshToken := some
        ((wantBackend.resourceOptions.identityPlatform.map
          (fun o => o.refreshToken)).getD false) } }

/-- `(flag || false).toString()`: render an optional boolean flag as the
wire strings used by `forwardInboundCredentials`. -/
def boolToWireString (b : Option Bool) : String :=
  if b.getD false then "true" else "false"

/-- `registerAuthBlockingTriggerToIdentityPlatform(endpoint, update)`,
with the fetched remote config passed in and the config written back
returned. Dispatches on the event type, patches the matching trigger slot
to this endpoint's uri, keeps the other slot, and on a fresh registration
(`update = false`) overwrites the forwarding flags. -/
def registerAuthBlockingTriggerToIdentityPlatform (endpoint : BlockingEndpoint)
    (update : Bool) (blockingConfig : BlockingFunctionsConfig) :
    Except String BlockingFunctionsConfig := do
  let et := endpoint.blockingTrigger.eventType
  let cfg ←
    if et == events.v1.BEFORE_CREATE_EVENT || et == events.v2.BEFORE_CREATE_EVENT then
      pure { blockingConfig with triggers := some (
        { beforeCreate := some { functionUri := endpoint.uri }
          beforeSignIn := blockingConfig.triggers.bind (fun t => t.beforeSignIn) } : BlockingTriggers) }
    else if et == events.v1.BEFORE_SIGN_IN_EVENT || et == events.v2.BEFORE_SIGN_IN_EVENT then
      pure { blockingConfig with triggers := some (
        { beforeCreate := blockingConfig.triggers.bind (fun t => t.beforeCreate)
          beforeSignIn := some { functionUri := endpoint.uri } } : BlockingTriggers) }
    else
      Except.error "Invalid auth blocking trigger type."
  let cfg :=
    if !update then
      { cfg with forwardInboundCredentials := some (
        { idToken := boolToWireString endpoint.blockingTrigger.idToken
          accessToken := boolToWireString endpoint.blockingTrigger.accessToken
          refreshToken := boolToWireString endpoint.blockingTrigger.refreshToken } : ForwardInboundCredentials) }
    else cfg
  pure cfg

/-- JavaScript truthiness of an optional uri string: `undefined` and the
empty string are falsy. -/
def truthyUri (u : Option String) : Bool :=
  match u with
  | none => false
  | some s => !s.isEmpty

/-- The optional chain `blockingConfig.triggers?.beforeCreate?.functionUri`. -/
def beforeCreateUri (blockingConfig : BlockingFunctionsConfig) : Option String :=
  blockingConfig.triggers.bind (fun t => t.beforeCreate.bind (fun s => s.functionUri))

/-- The optional chain `blockingConfig.triggers?.beforeSignIn?.functionUri`. -/
def beforeSignInUri (blockingConfig : BlockingFunctionsConfig) : Option String :=
  blockingConfig.triggers.bind (fun t => t.beforeSignIn.bind (fun s => s.functionUri))

/-- `unregisterAuthBlockingTriggerFromIdentityPlatform(endpoint)`, with the
fetched remote config passed in. Returns `ok none` for the early return
that performs no write, `ok (some cfg)` for the config written back, and
an error for an unrecognized event type. -/
def unregisterAuthBlockingTriggerFromIdentityPlatform (endpoint : BlockingEndpoint)
    (blockingConfig : BlockingFunctionsConfig) :
    Except String (Option BlockingFunctionsConfig) :=
  let et := endpoint.blockingTrigger.eventType
  if et == events.v1.BEFORE_CREATE_EVENT || et == events.v2.BEFORE_CREATE_EVENT then
    if !truthyUri (beforeCreateUri blockingConfig) ||
        endpoint.uri != beforeCreateUri blockingConfig then
      Except.ok none
    else
      Except.ok (some { blockingConfig with triggers := some (
        { beforeCreate := some { functionUri := none }
          beforeSignIn := blockingConfig.triggers.bind (fun t => t.beforeSignIn) } : BlockingTriggers) })
  else if et == events.v1.BEFORE_SIGN_IN_EVENT || et == events.v2.BEFORE_SIGN_IN_EVENT then
    if !truthyUri (beforeSignInUri blockingConfig) ||
        endpoint.uri != beforeSignInUri blockingConfig then
      Except.ok none
    else
      Except.ok (some { blockingConfig with triggers := some (
        { beforeCreate := blockingConfig.triggers.bind (fun t => t.beforeCreate)
          beforeSignIn := some { functionUri := none } } : BlockingTriggers) })
  else
    Except.error "Invalid auth blocking trigger type"

/-- The blocking endpoints of a plan, with their triggers exposed. -/
def blockingEndpointsOf (b : Backend) : List BlockingEndpoint :=
  (allEndpoints b).filterMap (fun ep =>
    ep.blockingTrigger.map (fun t => ⟨ep.id, ep.project, ep.uri, t⟩))

/-- Run `ensureAuthBlockingTriggerIsValid` once for each endpoint of the
list, threading the mutated backend through. -/
def processAll (l : List BlockingEndpoint) (b : Backend) : Backend :=
  l.foldl (fun acc e => (ensureAuthBlockingTriggerIsValid e acc).1) b

/-- Spec-side definition: the field-wise logical OR of every endpoint's
requested flags, an absent flag treated as `false`. -/
def mergedFlags (l : List BlockingEndpoint) : IdentityPlatformOptions :=
  { accessToken := l.any (fun e => e.blockingTrigger.accessToken.getD false)
    idToken := l.any (fun e => e.blockingTrigger.idToken.getD false)
    refreshToken := l.any (fun e => e.blockingTrigger.refreshToken.getD false) }

/-- The four recognized auth blocking event types, as tested by the
register and unregister dispatch. -/
def isRecognizedBlockingEvent (et : String) : Bool :=
  et == events.v1.BEFORE_CREATE_EVENT || et == events.v2.BEFORE_CREATE_EVENT ||
    et == events.v1.BEFORE_SIGN_IN_EVENT || et == events.v2.BEFORE_SIGN_IN_EVENT

/-- `ensureAuthBlockingTriggerIsValid` never changes the endpoint list of
the plan: only the shared resource options are written. -/
theorem ensure_preserves_endpoints (e : BlockingEndpoint) (b : Backend) :
    (ensureAuthBlockingTriggerIsValid e b).1.endpoints = b.endpoints := by
  unfold ensureAuthBlockingTriggerIsValid
  split
  · rfl
  · rfl

/-- The duplicate test only looks at the endpoint list of the plan. -/
theorem hasDuplicate_depends_only_on_endpoints (e : BlockingEndpoint) (b b' : Backend)
    (h : b.endpoints = b'.endpoints) :
    hasDuplicateBlockingTrigger e b = hasDuplicateBlockingTrigger e b' := by
  unfold hasDuplicateBlockingTrigger allEndpoints
  rw [h]

/-- The duplicate test succeeds exactly when some blocking endpoint of the
plan shares the event type but not the id. -/
theorem hasDuplicate_iff_exists (e : BlockingEndpoint) (b : Backend) :
    hasDuplicateBlockingTrigger e b = true ↔
      ∃ d ∈ blockingEndpointsOf b,
        d.blockingTrigger.eventType = e.blockingTrigger.eventType ∧ d.id ≠ e.id := by
  unfold hasDuplicateBlockingTrigger blockingEndpointsOf allEndpoints
  rw [List.find?_isSome]
  constructor
  · rintro ⟨ep, hmem, hp⟩
    rw [List.mem_filter] at hmem
    obtain ⟨hmem, hbt⟩ := hmem
    obtain ⟨t, ht⟩ := Option.isSome_iff_exists.mp hbt
    rw [ht] at hp
    simp only [Option.any_some, Bool.and_eq_true, beq_iff_eq, bne_iff_ne] at hp
    refine ⟨⟨ep.id, ep.project, ep.uri, t⟩, ?_, hp.1, hp.2⟩
    rw [List.mem_filterMap]
    exact ⟨ep, hmem, by rw [ht]; rfl⟩
  · rintro ⟨d, hd, hevt, hid⟩
    rw [List.mem_filterMap] at hd
    obtain ⟨ep, hmem, hmap⟩ := hd
    obtain ⟨t, ht, htd⟩ := Option.map_eq_some'.mp hmap
    refine ⟨ep, ?_, ?_⟩
    · rw [List.mem_filter]
      exact ⟨hmem, by unfold isBlockingTriggered; rw [ht]; rfl⟩
    · rw [ht]
      simp only [Option.any_some, Bool.and_eq_true, beq_iff_eq, bne_iff_ne]
      constructor
      · have : d.blockingTrigger = t := by rw [← htd]
        rw [← this]; exact hevt
      · have : d.id = ep.id := by rw [← htd]
        rw [← this]; exact hid

/-- C1: if the plan contains another blocking endpoint with a different id
but the same event type as the given endpoint, then
`ensureAuthBlockingTriggerIsValid` fails with the duplicate-trigger
error. -/
theorem ensure_duplicate_trigger_fails (e : BlockingEndpoint) (b : Backend)
    (ep : Endpoint) (t : BlockingTrigger)
    (hmem : ep ∈ allEndpoints b) (ht : ep.blockingTrigger = some t)
    (hevt : t.eventType = e.blockingTrigger.eventType) (hid : ep.id ≠ e.id) :
    (ensureAuthBlockingTriggerIsValid e b).2 =
      some (duplicateTriggerErrorMessage e.blockingTrigger.eventType) := by
  have hdup : hasDuplicateBlockingTrigger e b = true := by
    unfold hasDuplicateBlockingTrigger
    rw [List.find?_isSome]
    refine ⟨ep, ?_, ?_⟩
    · rw [List.mem_filter]
      exact ⟨hmem, by unfold isBlockingTriggered; rw [ht]; rfl⟩
    · rw [ht]
      simp only [Option.any_some, Bool.and_eq_true, beq_iff_eq, bne_iff_ne]
      exact ⟨hevt, hid⟩
  unfold ensureAuthBlockingTriggerIsValid
  rw [hdup]
  rfl

/-- Closed instance of C1: a plan with two before-create endpoints with
different ids rejects the first one. -/
theorem ensure_duplicate_trigger_fails_witness :
    (ensureAuthBlockingTriggerIsValid
      ⟨"a", "p", some "https://a", ⟨events.v2.BEFORE_CREATE_EVENT, some false, some true, none⟩⟩
      ⟨[⟨"a", "p", some "https://a",
          some ⟨events.v2.BEFORE_CREATE_EVENT, some false, some true, none⟩⟩,
        ⟨"c", "p", some "https://c",
          some ⟨events.v2.BEFORE_CREATE_EVENT, none, none, some true⟩⟩], ⟨none⟩⟩).2 =
      some (duplicateTriggerErrorMessage events.v2.BEFORE_CREATE_EVENT) :=
  ensure_duplicate_trigger_fails _ _
    ⟨"c", "p", some "https://c", some ⟨events.v2.BEFORE_CREATE_EVENT, none, none, some true⟩⟩
    ⟨events.v2.BEFORE_CREATE_EVENT, none, none, some true⟩
    (by simp [allEndpoints]) rfl rfl (by decide)

/-- C10: whenever `ensureAuthBlockingTriggerIsValid` throws, the backend is
left exactly as it was: the duplicate check precedes every merging side
effect, so the merged flags are not even initialized. -/
theorem ensure_error_leaves_backend_unchanged (e : BlockingEndpoint) (b : Backend)
    (h : (ensureAuthBlockingTriggerIsValid e b).2.isSome = true) :
    (ensureAuthBlockingTriggerIsValid e b).1 = b := by
  by_cases hd : hasDuplicateBlockingTrigger e b
  · unfold ensureAuthBlockingTriggerIsValid
    rw [hd]
    rfl
  · unfold ensureAuthBlockingTriggerIsValid at h
    rw [Bool.not_eq_true] at hd
    rw [hd] at h
    simp at h

/-- Closed instance of C10: on the duplicate plan the backend is returned
untouched, its merged flags still absent. -/
theorem ensure_error_leaves_backend_unchanged_witness :
    (ensureAuthBlockingTriggerIsValid
      ⟨"a", "p", some "https://a", ⟨events.v2.BEFORE_CREATE_EVENT, some false, some true, none⟩⟩
      ⟨[⟨"a", "p", some "https://a",
          some ⟨events.v2.BEFORE_CREATE_EVENT, some false, some true, none⟩⟩,
        ⟨"c", "p", some "https://c",
          some ⟨events.v2.BEFORE_CREATE_EVENT, none, none, some true⟩⟩], ⟨none⟩⟩).1 =
      ⟨[⟨"a", "p", some "https://a",
          some ⟨events.v2.BEFORE_CREATE_EVENT, some false, some true, none⟩⟩,
        ⟨"c", "p", some "https://c",
          some ⟨events.v2.BEFORE_CREATE_EVENT, none, none, some true⟩⟩], ⟨none⟩⟩ :=
  ensure_error_leaves_backend_unchanged _ _ (by decide)

/-- C8: copying the merged identity-platform options to an endpoint is
idempotent, and each copied flag is the plan's merged flag with an absent
merged object treated as all-false. -/
theorem copyIdentityPlatformOptions_idempotent (e : BlockingEndpoint) (b : Backend) :
    copyIdentityPlatformOptionsToEndpoint (copyIdentityPlatformOptionsToEndpoint e b) b =
        copyIdentityPlatformOptionsToEndpoint e b ∧
    (copyIdentityPlatformOptionsToEndpoint e b).blockingTrigger.accessToken =
        some ((b.resourceOptions.identityPlatform.map (fun o => o.accessToken)).getD false) ∧
    (copyIdentityPlatformOptionsToEndpoint e b).blockingTrigger.idToken =
        some ((b.resourceOptions.identityPlatform.map (fun o => o.idToken)).getD false) ∧
    (copyIdentityPlatformOptionsToEndpoint e b).blockingTrigger.refreshToken =
        some ((b.resourceOptions.identityPlatform.map (fun o => o.refreshToken)).getD false) :=
  ⟨rfl, rfl, rfl, rfl⟩

/-- C7: an endpoint whose event type is none of the four recognized
blocking events makes both the register and the unregister call fail with
the invalid-trigger-type error, so neither writes the remote config. -/
theorem invalid_trigger_type_errors (e : BlockingEndpoint) (cfg : BlockingFunctionsConfig)
    (update : Bool)
    (h : isRecognizedBlockingEvent e.blockingTrigger.eventType = false) :
    registerAuthBlockingTriggerToIdentityPlatform e update cfg =
        Except.error "Invalid auth blocking trigger type." ∧
    unregisterAuthBlockingTriggerFromIdentityPlatform e cfg =
        Except.error "Invalid auth blocking trigger type" := by
  unfold isRecognizedBlockingEvent at h
  simp only [Bool.or_eq_false_iff] at h
  obtain ⟨⟨⟨h1, h2⟩, h3⟩, h4⟩ := h
  constructor
  · unfold registerAuthBlockingTriggerToIdentityPlatform
    simp [h1, h2, h3, h4, Bind.bind, Except.bind]
  · unfold unregisterAuthBlockingTriggerFromIdentityPlatform
    simp [h1, h2, h3, h4]

/-- Closed instance of C7: an endpoint with a v1 pub/sub event type is
rejected by both calls. -/
theorem invalid_trigger_type_errors_witness :
    registerAuthBlockingTriggerToIdentityPlatform
        ⟨"a", "p", some "https://a", ⟨"google.pubsub.topic.publish", none, none, none⟩⟩
        false ⟨none, none⟩ =
      Except.error "Invalid auth blocking trigger type." ∧
    unregisterAuthBlockingTriggerFromIdentityPlatform
        ⟨"a", "p", some "https://a", ⟨"google.pubsub.topic.publish", none, none, none⟩⟩
        ⟨none, none⟩ =
      Except.error "Invalid auth blocking trigger type" :=
  invalid_trigger_type_errors _ _ false (by decide)

/-- C3: registering a before-create endpoint (v1 or v2) writes back a
config whose beforeCreate slot is exactly the endpoint's uri and whose
beforeSignIn slot is the fetched config's beforeSignIn slot; registering a
before-sign-in endpoint is symmetric, preserving beforeCreate. -/
theorem register_patches_matching_slot_only (e : BlockingEndpoint)
    (cfg : BlockingFunctionsConfig) (update : Bool) :
    ((e.blockingTrigger.eventType = events.v1.BEFORE_CREATE_EVENT ∨
      e.blockingTrigger.eventType = events.v2.BEFORE_CREATE_EVENT) →
      ∃ out, registerAuthBlockingTriggerToIdentityPlatform e update cfg = Except.ok out ∧
        out.triggers = some
          { beforeCreate := some { functionUri := e.uri }
            beforeSignIn := cfg.triggers.bind (fun t => t.beforeSignIn) }) ∧
    ((e.blockingTrigger.eventType = events.v1.BEFORE_SIGN_IN_EVENT ∨
      e.blockingTrigger.eventType = events.v2.BEFORE_SIGN_IN_EVENT) →
      ∃ out, registerAuthBlockingTriggerToIdentityPlatform e update cfg = Except.ok out ∧
        out.triggers = some
          { beforeCreate := cfg.triggers.bind (fun t => t.beforeCreate)
            beforeSignIn := some { functionUri := e.uri } }) := by
  unfold registerAuthBlockingTriggerToIdentityPlatform
  constructor
  · intro h
    rcases h with h | h <;>
      rw [h] <;> cases update <;>
        simp +decide [Bind.bind, Except.bind, pure, Except.pure, events.v1.BEFORE_CREATE_EVENT,
          events.v2.BEFORE_CREATE_EVENT, events.v1.BEFORE_SIGN_IN_EVENT,
          events.v2.BEFORE_SIGN_IN_EVENT]
  · intro h
    rcases h with h | h <;>
      rw [h] <;> cases update <;>
        simp +decide [Bind.bind, Except.bind, pure, Except.pure, events.v1.BEFORE_CREATE_EVENT,
          events.v2.BEFORE_CREATE_EVENT, events.v1.BEFORE_SIGN_IN_EVENT,
          events.v2.BEFORE_SIGN_IN_EVENT]

/-- Closed instance of C3: one before-create and one before-sign-in
registration on a config with both slots populated. -/
theorem register_patches_matching_slot_only_witness :
    (∃ out, registerAuthBlockingTriggerToIdentityPlatform
        ⟨"a", "p", some "https://a", ⟨events.v1.BEFORE_CREATE_EVENT, none, some true, none⟩⟩
        false ⟨some ⟨some ⟨some "https://old"⟩, some ⟨some "https://si"⟩⟩, none⟩ =
          Except.ok out ∧
      out.triggers = some
        { beforeCreate := some { functionUri := some "https://a" }
          beforeSignIn := some ⟨some "https://si"⟩ }) ∧
    (∃ out, registerAuthBlockingTriggerToIdentityPlatform
        ⟨"b", "p", some "https://b", ⟨events.v2.BEFORE_SIGN_IN_EVENT, none, none, none⟩⟩
        true ⟨some ⟨some ⟨some "https://old"⟩, some ⟨some "https://si"⟩⟩, none⟩ =
          Except.ok out ∧
      out.triggers = some
        { beforeCreate := some ⟨some "https://old"⟩
          beforeSignIn := some { functionUri := some "https://b" } }) :=
  ⟨(register_patches_matching_slot_only
      ⟨"a", "p", some "https://a", ⟨events.v1.BEFORE_CREATE_EVENT, none, some true, none⟩⟩
      ⟨some ⟨some ⟨some "https://old"⟩, some ⟨some "https://si"⟩⟩, none⟩ false).1
      (Or.inl rfl),
   (register_patches_matching_slot_only
      ⟨"b", "p", some "https://b", ⟨events.v2.BEFORE_SIGN_IN_EVENT, none, none, none⟩⟩
      ⟨some ⟨some ⟨some "https://old"⟩, some ⟨some "https://si"⟩⟩, none⟩ true).2
      (Or.inr rfl)⟩

/-- C4: on a fresh registration (`update = false`) the written config's
forwarding flags are this endpoint's three flags rendered as the strings
true/false with an absent flag rendered false; on an update
(`update = true`) the written forwarding flags are the fetched ones,
unchanged. -/
theorem register_forward_credentials (e : BlockingEndpoint) (cfg : BlockingFunctionsConfig)
    (h : isRecognizedBlockingEvent e.blockingTrigger.eventType = true) :
    (∃ out, registerAuthBlockingTriggerToIdentityPlatform e false cfg = Except.ok out ∧
      out.forwardInboundCredentials = some
        { idToken := if e.blockingTrigger.idToken.getD false then "true" else "false"
          accessToken := if e.blockingTrigger.accessToken.getD false then "true" else "false"
          refreshToken :=
            if e.blockingTrigger.refreshToken.getD false then "true" else "false" }) ∧
    (∃ out, registerAuthBlockingTriggerToIdentityPlatform e true cfg = Except.ok out ∧
      out.forwardInboundCredentials = cfg.forwardInboundCredentials) := by
  unfold isRecognizedBlockingEvent at h
  unfold registerAuthBlockingTriggerToIdentityPlatform
  simp only [Bool.or_eq_true, beq_iff_eq] at h
  rcases h with ((h | h) | h) | h <;> rw [h] <;>
    constructor <;>
      simp +decide [Bind.bind, Except.bind, pure, Except.pure, boolToWireString,
        events.v1.BEFORE_CREATE_EVENT, events.v2.BEFORE_CREATE_EVENT,
        events.v1.BEFORE_SIGN_IN_EVENT, events.v2.BEFORE_SIGN_IN_EVENT]

/-- Closed instance of C4: fresh registration renders the flags as wire
strings, an update keeps the fetched ones. -/
theorem register_forward_credentials_witness :
    (∃ out, registerAuthBlockingTriggerToIdentityPlatform
        ⟨"a", "p", some "https://a", ⟨events.v2.BEFORE_CREATE_EVENT, some false, some true, none⟩⟩
        false ⟨none, some ⟨"false", "false", "true"⟩⟩ = Except.ok out ∧
      out.forwardInboundCredentials = some
        { idToken := "true", accessToken := "false", refreshToken := "false" }) ∧
    (∃ out, registerAuthBlockingTriggerToIdentityPlatform
        ⟨"a", "p", some "https://a", ⟨events.v2.BEFORE_CREATE_EVENT, some false, some true, none⟩⟩
        true ⟨none, some ⟨"false", "false", "true"⟩⟩ = Except.ok out ∧
      out.forwardInboundCredentials = some ⟨"false", "false", "true"⟩) :=
  register_forward_credentials
    ⟨"a", "p", some "https://a", ⟨events.v2.BEFORE_CREATE_EVENT, some false, some true, none⟩⟩
    ⟨none, some ⟨"false", "false", "true"⟩⟩ (by decide)

/-- C5: for a recognized event type, if the matching trigger slot of the
fetched config has no functionUri or a functionUri different from the
endpoint's uri, the unregister call returns without writing. -/
theorem unregister_uri_mismatch_is_noop (e : BlockingEndpoint) (cfg : BlockingFunctionsConfig) :
    ((e.blockingTrigger.eventType = events.v1.BEFORE_CREATE_EVENT ∨
      e.blockingTrigger.eventType = events.v2.BEFORE_CREATE_EVENT) →
      (beforeCreateUri cfg = none ∨ beforeCreateUri cfg ≠ e.uri) →
      unregisterAuthBlockingTriggerFromIdentityPlatform e cfg = Except.ok none) ∧
    ((e.blockingTrigger.eventType = events.v1.BEFORE_SIGN_IN_EVENT ∨
      e.blockingTrigger.eventType = events.v2.BEFORE_SIGN_IN_EVENT) →
      (beforeSignInUri cfg = none ∨ beforeSignInUri cfg ≠ e.uri) →
      unregisterAuthBlockingTriggerFromIdentityPlatform e cfg = Except.ok none) := by
  constructor
  · intro h hu
    unfold unregisterAuthBlockingTriggerFromIdentityPlatform
    have hcond : (!truthyUri (beforeCreateUri cfg) ||
        e.uri != beforeCreateUri cfg) = true := by
      rcases hu with hu | hu
      · rw [hu]; rfl
      · have hb : (e.uri != beforeCreateUri cfg) = true := bne_iff_ne.mpr (Ne.symm hu)
        rw [hb, Bool.or_true]
    rcases h with h | h <;> rw [h] <;>
      simp +decide [hcond, events.v1.BEFORE_CREATE_EVENT, events.v2.BEFORE_CREATE_EVENT,
        events.v1.BEFORE_SIGN_IN_EVENT, events.v2.BEFORE_SIGN_IN_EVENT]
  · intro h hu
    unfold unregisterAuthBlockingTriggerFromIdentityPlatform
    have hcond : (!truthyUri (beforeSignInUri cfg) ||
        e.uri != beforeSignInUri cfg) = true := by
      rcases hu with hu | hu
      · rw [hu]; rfl
      · have hb : (e.uri != beforeSignInUri cfg) = true := bne_iff_ne.mpr (Ne.symm hu)
        rw [hb, Bool.or_true]
    rcases h with h | h <;> rw [h] <;>
      simp +decide [hcond, events.v1.BEFORE_CREATE_EVENT, events.v2.BEFORE_CREATE_EVENT,
        events.v1.BEFORE_SIGN_IN_EVENT, events.v2.BEFORE_SIGN_IN_EVENT]

/-- Closed instance of C5: unregistering endpoint B while the slot holds
endpoint A's uri performs no write. -/
theorem unregister_uri_mismatch_is_noop_witness :
    unregisterAuthBlockingTriggerFromIdentityPlatform
        ⟨"b", "p", some "https://b", ⟨events.v1.BEFORE_CREATE_EVENT, none, none, none⟩⟩
        ⟨some ⟨some ⟨some "https://a"⟩, none⟩, none⟩ = Except.ok none :=
  (unregister_uri_mismatch_is_noop
    ⟨"b", "p", some "https://b", ⟨events.v1.BEFORE_CREATE_EVENT, none, none, none⟩⟩
    ⟨some ⟨some ⟨some "https://a"⟩, none⟩, none⟩).1 (Or.inl rfl) (Or.inr (by decide))

/-- C6: registering an endpoint with a recognized event type and non-empty
uri and then unregistering the same endpoint clears the matching trigger
slot to the empty object and leaves the other slot as it was before the
register call. -/
theorem register_then_unregister_restores_slot (e : BlockingEndpoint)
    (cfg : BlockingFunctionsConfig) (update : Bool) (u : String)
    (hu : e.uri = some u) (hne : u ≠ "") :
    ((e.blockingTrigger.eventType = events.v1.BEFORE_CREATE_EVENT ∨
      e.blockingTrigger.eventType = events.v2.BEFORE_CREATE_EVENT) →
      ∃ out1 out2,
        registerAuthBlockingTriggerToIdentityPlatform e update cfg = Except.ok out1 ∧
        unregisterAuthBlockingTriggerFromIdentityPlatform e out1 = Except.ok (some out2) ∧
        out2.triggers = some
          { beforeCreate := some { functionUri := none }
            beforeSignIn := cfg.triggers.bind (fun t => t.beforeSignIn) }) ∧
    ((e.blockingTrigger.eventType = events.v1.BEFORE_SIGN_IN_EVENT ∨
      e.blockingTrigger.eventType = events.v2.BEFORE_SIGN_IN_EVENT) →
      ∃ out1 out2,
        registerAuthBlockingTriggerToIdentityPlatform e update cfg = Except.ok out1 ∧
        unregisterAuthBlockingTriggerFromIdentityPlatform e out1 = Except.ok (some out2) ∧
        out2.triggers = some
          { beforeCreate := cfg.triggers.bind (fun t => t.beforeCreate)
            beforeSignIn := some { functionUri := none } }) := by
  have hemp : u.isEmpty = false := by
    rw [Bool.eq_false_iff]
    intro hc
    exact hne ((String.isEmpty_iff u).mp hc)
  constructor
  · intro h
    rcases h with h | h <;> cases update <;>
      simp +decide [registerAuthBlockingTriggerToIdentityPlatform,
        unregisterAuthBlockingTriggerFromIdentityPlatform, Bind.bind, Except.bind, pure,
        Except.pure, truthyUri, beforeCreateUri, beforeSignInUri, h, hu, hemp,
        events.v1.BEFORE_CREATE_EVENT, events.v2.BEFORE_CREATE_EVENT,
        events.v1.BEFORE_SIGN_IN_EVENT, events.v2.BEFORE_SIGN_IN_EVENT]
  · intro h
    rcases h with h | h <;> cases update <;>
      simp +decide [registerAuthBlockingTriggerToIdentityPlatform,
        unregisterAuthBlockingTriggerFromIdentityPlatform, Bind.bind, Except.bind, pure,
        Except.pure, truthyUri, beforeCreateUri, beforeSignInUri, h, hu, hemp,
        events.v1.BEFORE_CREATE_EVENT, events.v2.BEFORE_CREATE_EVENT,
        events.v1.BEFORE_SIGN_IN_EVENT, events.v2.BEFORE_SIGN_IN_EVENT]

/-- Closed instance of C6: register then unregister a before-create
endpoint on an initially empty remote config. -/
theorem register_then_unregister_restores_slot_witness :
    ∃ out1 out2,
      registerAuthBlockingTriggerToIdentityPlatform
          ⟨"a", "p", some "https://a", ⟨events.v2.BEFORE_CREATE_EVENT, some false, some true, none⟩⟩
          false ⟨none, none⟩ = Except.ok out1 ∧
      unregisterAuthBlockingTriggerFromIdentityPlatform
          ⟨"a", "p", some "https://a", ⟨events.v2.BEFORE_CREATE_EVENT, some false, some true, none⟩⟩
          out1 = Except.ok (some out2) ∧
      out2.triggers = some
        { beforeCreate := some { functionUri := none }, beforeSignIn := none } :=
  (register_then_unregister_restores_slot
    ⟨"a", "p", some "https://a", ⟨events.v2.BEFORE_CREATE_EVENT, some false, some true, none⟩⟩
    ⟨none, none⟩ false "https://a" rfl (by decide)).1 (Or.inr rfl)

/-- C9: two blocking endpoints with different ids carrying the v1 and the
v2 variant of the same event-type family do not trip the duplicate check:
the comparison is exact string equality of event types, not
family-level. -/
theorem v1_v2_variants_not_duplicate (e1 e2 : BlockingEndpoint) (ro : ResourceOptions)
    (_hid : e1.id ≠ e2.id)
    (hf : (e1.blockingTrigger.eventType = events.v1.BEFORE_CREATE_EVENT ∧
           e2.blockingTrigger.eventType = events.v2.BEFORE_CREATE_EVENT) ∨
          (e1.blockingTrigger.eventType = events.v1.BEFORE_SIGN_IN_EVENT ∧
           e2.blockingTrigger.eventType = events.v2.BEFORE_SIGN_IN_EVENT)) :
    (ensureAuthBlockingTriggerIsValid e1
        ⟨[e1.toEndpoint, e2.toEndpoint], ro⟩).2 = none ∧
    (ensureAuthBlockingTriggerIsValid e2
        ⟨[e1.toEndpoint, e2.toEndpoint], ro⟩).2 = none := by
  have hd1 : hasDuplicateBlockingTrigger e1 ⟨[e1.toEndpoint, e2.toEndpoint], ro⟩ = false := by
    rcases hf with ⟨h1, h2⟩ | ⟨h1, h2⟩ <;>
      simp +decide [hasDuplicateBlockingTrigger, allEndpoints, isBlockingTriggered,
        BlockingEndpoint.toEndpoint, List.filter, List.find?, h1, h2,
        events.v1.BEFORE_CREATE_EVENT, events.v2.BEFORE_CREATE_EVENT,
        events.v1.BEFORE_SIGN_IN_EVENT, events.v2.BEFORE_SIGN_IN_EVENT]
  have hd2 : hasDuplicateBlockingTrigger e2 ⟨[e1.toEndpoint, e2.toEndpoint], ro⟩ = false := by
    rcases hf with ⟨h1, h2⟩ | ⟨h1, h2⟩ <;>
      simp +decide [hasDuplicateBlockingTrigger, allEndpoints, isBlockingTriggered,
        BlockingEndpoint.toEndpoint, List.filter, List.find?, h1, h2,
        events.v1.BEFORE_CREATE_EVENT, events.v2.BEFORE_CREATE_EVENT,
        events.v1.BEFORE_SIGN_IN_EVENT, events.v2.BEFORE_SIGN_IN_EVENT]
  constructor
  · unfold ensureAuthBlockingTriggerIsValid
    rw [hd1]
    rfl
  · unfold ensureAuthBlockingTriggerIsValid
    rw [hd2]
    rfl

/-- Closed instance of C9: a v1 and a v2 before-create endpoint with
different ids both pass validation without a duplicate error. -/
theorem v1_v2_variants_not_duplicate_witness :
    (ensureAuthBlockingTriggerIsValid
      ⟨"a", "p", some "https://a", ⟨events.v1.BEFORE_CREATE_EVENT, none, none, none⟩⟩
      ⟨[⟨"a", "p", some "https://a", some ⟨events.v1.BEFORE_CREATE_EVENT, none, none, none⟩⟩,
        ⟨"b", "p", some "https://b", some ⟨events.v2.BEFORE_CREATE_EVENT, none, none, none⟩⟩],
       ⟨none⟩⟩).2 = none ∧
    (ensureAuthBlockingTriggerIsValid
      ⟨"b", "p", some "https://b", ⟨events.v2.BEFORE_CREATE_EVENT, none, none, none⟩⟩
      ⟨[⟨"a", "p", some "https://a", some ⟨events.v1.BEFORE_CREATE_EVENT, none, none, none⟩⟩,
        ⟨"b", "p", some "https://b", some ⟨events.v2.BEFORE_CREATE_EVENT, none, none, none⟩⟩],
       ⟨none⟩⟩).2 = none :=
  v1_v2_variants_not_duplicate
    ⟨"a", "p", some "https://a", ⟨events.v1.BEFORE_CREATE_EVENT, none, none, none⟩⟩
    ⟨"b", "p", some "https://b", ⟨events.v2.BEFORE_CREATE_EVENT, none, none, none⟩⟩
    ⟨none⟩ (by decide) (Or.inl ⟨rfl, rfl⟩)

/-- One non-throwing call merges this endpoint's flags into already
initalized merged options by a field-wise OR. -/
theorem ensure_merges_flags (e : BlockingEndpoint) (b : Backend)
    (ip : IdentityPlatformOptions)
    (hip : b.resourceOptions.identityPlatform = some ip)
    (hd : hasDuplicateBlockingTrigger e b = false) :
    (ensureAuthBlockingTriggerIsValid e b).1.resourceOptions.identityPlatform =
      some { accessToken := ip.accessToken || e.blockingTrigger.accessToken.getD false
             idToken := ip.idToken || e.blockingTrigger.idToken.getD false
             refreshToken := ip.refreshToken || e.blockingTrigger.refreshToken.getD false } := by
  unfold ensureAuthBlockingTriggerIsValid
  rw [hd, hip]
  rfl

/-- The first non-throwing call initializes absent merged options to
all-false and ORs in this endpoint's flags. -/
theorem ensure_initializes_flags (e : BlockingEndpoint) (b : Backend)
    (hip : b.resourceOptions.identityPlatform = none)
    (hd : hasDuplicateBlockingTrigger e b = false) :
    (ensureAuthBlockingTriggerIsValid e b).1.resourceOptions.identityPlatform =
      some { accessToken := e.blockingTrigger.accessToken.getD false
             idToken := e.blockingTrigger.idToken.getD false
             refreshToken := e.blockingTrigger.refreshToken.getD false } := by
  unfold ensureAuthBlockingTriggerIsValid
  rw [hd, hip]
  rfl

/-- `List.any` is invariant under permutation of the list. -/
theorem perm_any_eq {α : Type} (p : α → Bool) {l1 l2 : List α} (h : l1.Perm l2) :
    l1.any p = l2.any p := by
  rw [Bool.eq_iff_iff, List.any_eq_true, List.any_eq_true]
  constructor
  · rintro ⟨x, hx, hp⟩
    exact ⟨x, h.mem_iff.mp hx, hp⟩
  · rintro ⟨x, hx, hp⟩
    exact ⟨x, h.mem_iff.mpr hx, hp⟩

/-- Folding the validator over a list of endpoints, none of which trips
the duplicate check, ORs all their flags into the merged options. -/
theorem processAll_ident_some (l : List BlockingEndpoint) (b : Backend)
    (ip : IdentityPlatformOptions)
    (hip : b.resourceOptions.identityPlatform = some ip)
    (hnd : ∀ e ∈ l, hasDuplicateBlockingTrigger e b = false) :
    (processAll l b).resourceOptions.identityPlatform =
      some { accessToken := ip.accessToken || (mergedFlags l).accessToken
             idToken := ip.idToken || (mergedFlags l).idToken
             refreshToken := ip.refreshToken || (mergedFlags l).refreshToken } := by
  induction l generalizing b ip with
  | nil =>
    simp only [processAll, List.foldl_nil, mergedFlags, List.any_nil, Bool.or_false]
    rw [hip]
  | cons e l ih =>
    have hd : hasDuplicateBlockingTrigger e b = false := hnd e (List.mem_cons_self e l)
    have hstep := ensure_merges_flags e b ip hip hd
    have hnd' : ∀ e' ∈ l, hasDuplicateBlockingTrigger e' (ensureAuthBlockingTriggerIsValid e b).1
        = false := by
      intro e' he'
      rw [hasDuplicate_depends_only_on_endpoints e' _ b (ensure_preserves_endpoints e b)]
      exact hnd e' (List.mem_cons_of_mem e he')
    have := ih (ensureAuthBlockingTriggerIsValid e b).1 _ hstep hnd'
    simp only [processAll, List.foldl_cons] at this ⊢
    rw [this]
    simp only [mergedFlags, List.any_cons, Bool.or_assoc]

/-- On a plan whose blocking endpoints have pairwise distinct event types,
no endpoint of the plan trips the duplicate check. -/
theorem nodup_eventTypes_no_duplicate (b : Backend) (l : List BlockingEndpoint)
    (hperm : l.Perm (blockingEndpointsOf b))
    (hnodup : l.Pairwise
      (fun a c => a.blockingTrigger.eventType ≠ c.blockingTrigger.eventType))
    (e : BlockingEndpoint) (he : e ∈ l) :
    hasDuplicateBlockingTrigger e b = false := by
  by_contra hcon
  rw [Bool.not_eq_false, hasDuplicate_iff_exists] at hcon
  obtain ⟨d, hd, hevt, hid⟩ := hcon
  have hdl : d ∈ l := hperm.mem_iff.mpr hd
  have hne : e ≠ d := by
    intro hcontra
    exact hid (by rw [hcontra])
  have hsymm : Symmetric
      (fun a c : BlockingEndpoint =>
        a.blockingTrigger.eventType ≠ c.blockingTrigger.eventType) :=
    fun _ _ hac => Ne.symm hac
  exact (hnodup.forall hsymm he hdl hne) hevt.symm

/-- C2: starting from absent merged flags, running the validator once for
each blocking endpoint of the plan, in any order, with no duplicate event
types, leaves the plan's merged identity-platform flags equal field-wise
to the OR of every blocking endpoint's requested flags, an absent flag
treated as false. -/
theorem processAll_merges_all_flags (b : Backend) (l : List BlockingEndpoint)
    (h0 : b.resourceOptions.identityPlatform = none)
    (hperm : l.Perm (blockingEndpointsOf b))
    (hnodup : l.Pairwise
      (fun a c => a.blockingTrigger.eventType ≠ c.blockingTrigger.eventType))
    (hne : l ≠ []) :
    (processAll l b).resourceOptions.identityPlatform =
      some (mergedFlags (blockingEndpointsOf b)) := by
  obtain ⟨e, l', rfl⟩ := List.exists_cons_of_ne_nil hne
  have hd : hasDuplicateBlockingTrigger e b = false :=
    nodup_eventTypes_no_duplicate b (e :: l') hperm hnodup e (List.mem_cons_self e l')
  have hstep := ensure_initializes_flags e b h0 hd
  have hnd' : ∀ e' ∈ l', hasDuplicateBlockingTrigger e' (ensureAuthBlockingTriggerIsValid e b).1
      = false := by
    intro e' he'
    rw [hasDuplicate_depends_only_on_endpoints e' _ b (ensure_preserves_endpoints e b)]
    exact nodup_eventTypes_no_duplicate b (e :: l') hperm hnodup e'
      (List.mem_cons_of_mem e he')
  have hfold := processAll_ident_some l' (ensureAuthBlockingTriggerIsValid e b).1 _ hstep hnd'
  have hML : mergedFlags (blockingEndpointsOf b) = mergedFlags (e :: l') := by
    unfold mergedFlags
    rw [perm_any_eq _ hperm.symm, perm_any_eq _ hperm.symm, perm_any_eq _ hperm.symm]
  simp only [processAll, List.foldl_cons] at hfold ⊢
  rw [hfold, hML]
  simp only [mergedFlags, List.any_cons]

/-- Closed instance of C2: two blocking endpoints with distinct event
types merge their flags into the OR on the plan. -/
theorem processAll_merges_all_flags_witness :
    (processAll
      [⟨"a", "p", some "https://a", ⟨events.v2.BEFORE_CREATE_EVENT, some false, some true, none⟩⟩,
       ⟨"b", "p", some "https://b", ⟨events.v1.BEFORE_SIGN_IN_EVENT, some true, none, none⟩⟩]
      ⟨[⟨"a", "p", some "https://a",
          some ⟨events.v2.BEFORE_CREATE_EVENT, some false, some true, none⟩⟩,
        ⟨"b", "p", some "https://b",
          some ⟨events.v1.BEFORE_SIGN_IN_EVENT, some true, none, none⟩⟩], ⟨none⟩⟩
      ).resourceOptions.identityPlatform =
      some (mergedFlags (blockingEndpointsOf
        ⟨[⟨"a", "p", some "https://a",
            some ⟨events.v2.BEFORE_CREATE_EVENT, some false, some true, none⟩⟩,
          ⟨"b", "p", some "https://b",
            some ⟨events.v1.BEFORE_SIGN_IN_EVENT, some true, none, none⟩⟩], ⟨none⟩⟩)) :=
  processAll_merges_all_flags
    ⟨[⟨"a", "p", some "https://a",
        some ⟨events.v2.BEFORE_CREATE_EVENT, some false, some true, none⟩⟩,
      ⟨"b", "p", some "https://b",
        some ⟨events.v1.BEFORE_SIGN_IN_EVENT, some true, none, none⟩⟩], ⟨none⟩⟩
    [⟨"a", "p", some "https://a", ⟨events.v2.BEFORE_CREATE_EVENT, some false, some true, none⟩⟩,
     ⟨"b", "p", some "https://b", ⟨events.v1.BEFORE_SIGN_IN_EVENT, some true, none, none⟩⟩]
    rfl (by decide) (by decide) (by decide)

end AuthBlocking
